import Mathlib

/-!
# Verification of the Task Update Delivery Subsystem (a2a-rs frontend)

Shallow embedding of `src/a2a-agents/bin/frontend.rs`: the multipart message
assembler, the task submission gateway (`send_message`, `submit_expense`), the
retry-aware task fetcher (`chat_page`), the webhook authenticator/receiver
(`handle_push_notification`), and a spec-level model of the event stream bridge
(`create_sse_stream`, whose implementation lives outside the provided sources).

Rust strings are modelled as Lean `String`; byte buffers as `List Nat`
(each element one byte); fallible operations as `Except`; network calls to the
external A2A client as oracle parameters; side effects (submits, registrations,
sleeps, log lines) as explicit event traces.
-/

namespace A2AFrontend

/-! ## Data model (a2a_rs::domain, as consumed by frontend.rs) -/

/-- Task lifecycle states of the external protocol (spec §3). -/
inductive TaskState where
  | submitted
  | working
  | inputRequired
  | completed
  | canceled
  | failed
deriving Repr, DecidableEq

/-- Rust `format!("{:?}", state)` — the `Debug` rendering of `TaskState`
used by `chat_page` to build the displayed status string. -/
def formatTaskState : TaskState → String
  | .submitted => "Submitted"
  | .working => "Working"
  | .inputRequired => "InputRequired"
  | .completed => "Completed"
  | .canceled => "Canceled"
  | .failed => "Failed"

/-- Rust `a2a_rs::domain::FileContent` as constructed in `send_message`. -/
structure FileContent where
  bytes : Option String
  uri : Option String
  name : Option String
  mimeType : Option String
deriving Repr, DecidableEq

/-- Rust `a2a_rs::domain::Part` as used by frontend.rs. `Part::text` builds a text
part; the file variant carries a `FileContent`. The `metadata` field is `None`
in every construction in this code, so it is omitted. -/
inductive Part where
  | text (s : String)
  | file (file : FileContent)
deriving Repr, DecidableEq

/-- Rust `a2a_rs::domain::Role`. -/
inductive Role where
  | user
  | agent
deriving Repr, DecidableEq

/-- Rust `a2a_rs::domain::Message` restricted to the fields frontend.rs populates;
`metadata`, `context_id`, `extensions`, `reference_task_ids` are always `None`
there and are modelled with their always-`none` types. -/
structure Message where
  role : Role
  parts : List Part
  referenceTaskIds : Option (List String)
  messageId : String
  taskId : Option String
  contextId : Option String
  kind : String
deriving Repr, DecidableEq

/-- Rust `a2a_rs::domain::TaskStatus`, restricted to the `state` field frontend.rs
reads. -/
structure TaskStatus where
  state : TaskState
deriving Repr, DecidableEq

/-- Rust `a2a_rs::domain::Task`, restricted to the fields frontend.rs reads:
`status` and the optional message `history`. -/
structure Task where
  id : String
  status : TaskStatus
  history : Option (List Message)
deriving Repr, DecidableEq

/-- Rust `a2a_rs::domain::TaskStatusUpdateEvent`, restricted to the fields
`handle_push_notification` reads (`task_id`, `status`). -/
structure TaskStatusUpdateEvent where
  taskId : String
  status : TaskStatus
deriving Repr, DecidableEq

/-! ## Base64 (base64::engine::general_purpose::STANDARD.encode) -/

/-- The standard base64 alphabet. -/
def base64Alphabet : List Char :=
  "ABCDEFGHIJKLMNOPQRSTUVWXYZabcdefghijklmnopqrstuvwxyz0123456789+/".data

/-- The base64 digit for a 6-bit value. -/
def base64Char (n : Nat) : Char := base64Alphabet.getD n 'A'

/-- Standard base64 encoding with padding, over a byte list (each `Nat` one
byte), as performed by `STANDARD.encode` on the uploaded file bytes. -/
def base64Encode : List Nat → String
  | [] => ""
  | [a] =>
    ⟨[base64Char (a / 4), base64Char (a % 4 * 16), '=', '=']⟩
  | [a, b] =>
    ⟨[base64Char (a / 4), base64Char (a % 4 * 16 + b / 16),
      base64Char (b % 16 * 4), '=']⟩
  | a :: b :: c :: rest =>
    (⟨[base64Char (a / 4), base64Char (a % 4 * 16 + b / 16),
       base64Char (b % 16 * 4 + c / 64), base64Char (c % 64)]⟩ : String)
      ++ base64Encode rest

/-! ## Multipart message assembly (send_message, frontend.rs lines 361–455)

A multipart field carries a name, optional filename and content type, and a
payload. The handler reads the payload either as text (`field.text()`, for
`task_id` and `message`) or as raw bytes (`field.bytes()`, for `receipt`);
both views are carried (`text` is the UTF-8 decoding of `data`; a decode
failure aborts the request before assembly and is outside the modelled paths).
-/

structure MultipartField where
  name : String
  fileName : Option String
  contentType : Option String
  text : String
  data : List Nat
deriving Repr, DecidableEq

/-- The mutable state of `send_message`'s field loop: the `task_id`,
`message_text` and `parts` accumulators (initialised to `""`, `""`, `[]`). -/
structure AssemblyState where
  taskId : String
  messageText : String
  parts : List Part
deriving Repr, DecidableEq

/-- The `File` part built for a non-empty `receipt` field
(frontend.rs lines 414–422). -/
def filePartOf (f : MultipartField) : Part :=
  .file { bytes := some (base64Encode f.data), uri := none,
          name := f.fileName, mimeType := f.contentType }

/-- One iteration of `send_message`'s `while let Some(field)` loop
(frontend.rs lines 372–430): `task_id` and `message` overwrite their
accumulators; a non-empty `receipt` appends a `File` part; an empty `receipt`
and unknown field names are ignored. -/
def processField (st : AssemblyState) (f : MultipartField) : AssemblyState :=
  if f.name = "task_id" then { st with taskId := f.text }
  else if f.name = "message" then { st with messageText := f.text }
  else if f.name = "receipt" then
    if f.data.isEmpty then st
    else { st with parts := st.parts ++ [filePartOf f] }
  else st

/-- The whole field loop over the arrival-ordered field list. -/
def processFields (fields : List MultipartField) : AssemblyState :=
  fields.foldl processField ⟨"", "", []⟩

/-- The final `parts` vector after line 434: a non-empty `message_text` is
inserted at position 0 (`parts.insert(0, Part::text(message_text))`). -/
def assembledParts (fields : List MultipartField) : List Part :=
  let st := processFields fields
  if st.messageText.isEmpty then st.parts else Part.text st.messageText :: st.parts

/-! ## Task submission gateway (send_message and submit_expense) -/

/-- The validation errors of `send_message` (spec names; the source raises
them as `AppError(anyhow!("Missing task_id"))` and
`AppError(anyhow!("Message cannot be empty"))`). -/
inductive ValidationError where
  | missingTaskId
  | emptyMessage
deriving Repr, DecidableEq

/-- Observable actions of a gateway handler, in execution order: a submit call
(`send_task_message`), a webhook registration call
(`set_task_push_notification` with its config's url and bearer token), a log
line, and a sleep (milliseconds). -/
inductive GatewayEvent where
  | submitCalled (taskId : String) (message : Message)
  | registerCalled (taskId : String) (url : String) (token : Option String)
  | logInfo (line : String)
  | logWarn (line : String)
  | sleep (ms : Nat)
deriving Repr, DecidableEq

/-- A gateway handler's result: a validation failure, an upstream
(`AppError`-wrapped) failure, or a redirect response. -/
inductive SendOutcome where
  | validationError (e : ValidationError)
  | upstreamError (message : String)
  | redirect (location : String)
deriving Repr, DecidableEq

/-- The webhook callback URL registered by both handlers
(frontend.rs lines 234, 478). -/
def webhookUrl : String := "http://localhost:3000/webhook/push-notification"

/-- Handler `send_message` (frontend.rs lines 361–506), with the external client's
two network calls supplied as oracles: `submitResult` is the outcome of
`send_task_message`, `registerResult` of `set_task_push_notification`.
Returns the handler outcome and the trace of observable actions. -/
def sendMessage (webhookToken msgId : String) (fields : List MultipartField)
    (submitResult : Except String Task) (registerResult : Except String Unit) :
    SendOutcome × List GatewayEvent :=
  let st := processFields fields
  let parts := assembledParts fields
  if st.taskId.isEmpty then (.validationError .missingTaskId, [])
  else if parts.isEmpty then (.validationError .emptyMessage, [])
  else
    let message : Message :=
      { role := .user, parts := parts, referenceTaskIds := none,
        messageId := msgId, taskId := some st.taskId, contextId := none,
        kind := "message" }
    match submitResult with
    | .error e =>
      (.upstreamError ("Failed to send message: " ++ e),
       [.submitCalled st.taskId message])
    | .ok _ =>
      let regLog : GatewayEvent :=
        match registerResult with
        | .ok _ => .logInfo ("Push notification registered for task "
            ++ st.taskId ++ " with authentication")
        | .error e => .logWarn ("Failed to register push notification for task "
            ++ st.taskId ++ ": " ++ e)
      (.redirect ("/chat/" ++ st.taskId),
       [.submitCalled st.taskId message,
        .registerCalled st.taskId webhookUrl (some webhookToken),
        regLog, .sleep 500])

/-- The `ExpenseSubmitForm` fields (frontend.rs lines 80–88). -/
structure ExpenseSubmitForm where
  category : String
  amount : String
  date : String
  vendor : Option String
  description : String
  projectCode : Option String
deriving Repr, DecidableEq

/-- The formatted expense text (frontend.rs lines 180–200). -/
def expenseDetails (f : ExpenseSubmitForm) : String :=
  "I need to submit an expense reimbursement:\n\nCategory: " ++ f.category
    ++ "\nAmount: $" ++ f.amount
    ++ "\nDate: " ++ f.date ++ "\n"
    ++ (match f.vendor with | some v => "Vendor: " ++ v ++ "\n" | none => "")
    ++ "Description: " ++ f.description ++ "\n"
    ++ (match f.projectCode with
        | some p => "Project/Cost Center: " ++ p ++ "\n" | none => "")

/-- Handler `submit_expense` (frontend.rs lines 170–258): builds a one-text-part
message for a freshly generated task id, submits it (failure fatal), then
best-effort registers the webhook, sleeps 500 ms, and redirects. -/
def submitExpense (webhookToken taskId msgId : String) (form : ExpenseSubmitForm)
    (submitResult : Except String Task) (registerResult : Except String Unit) :
    SendOutcome × List GatewayEvent :=
  let message : Message :=
    { role := .user, parts := [Part.text (expenseDetails form)],
      referenceTaskIds := none, messageId := msgId, taskId := some taskId,
      contextId := none, kind := "message" }
  match submitResult with
  | .error e =>
    (.upstreamError ("Failed to submit expense: " ++ e),
     [.submitCalled taskId message])
  | .ok _ =>
    let regLog : GatewayEvent :=
      match registerResult with
      | .ok _ => .logInfo ("Push notification registered for expense task "
          ++ taskId ++ " with authentication")
      | .error e => .logWarn ("Failed to register push notification: " ++ e)
    (.redirect ("/chat/" ++ taskId),
     [.submitCalled taskId message,
      .registerCalled taskId webhookUrl (some webhookToken),
      regLog, .sleep 500])

/-! ## Retry-aware task fetcher (chat_page, frontend.rs lines 306–359) -/

/-- Observable actions of the fetch loop: the n-th `get_task` call (attempts
numbered from 1) and an inter-attempt sleep (milliseconds). -/
inductive FetchEvent where
  | attempt (n : Nat)
  | sleep (ms : Nat)
deriving Repr, DecidableEq

/-- The retry loop of `chat_page` (frontend.rs lines 315–351). `fetch n` is the
outcome of the n-th `get_task` call; `retryCount` mirrors the source's
`retry_count` accumulator and `maxRetries` its `max_retries`. On success the
loop breaks with the task's history (empty if absent) and its formatted
status state; after `maxRetries` failures it breaks with `([], none)`.
Returns the result together with the trace of attempts and sleeps. -/
def chatFetchLoop (fetch : Nat → Except String Task)
    (retryCount maxRetries : Nat) :
    (List Message × Option String) × List FetchEvent :=
  match fetch (retryCount + 1) with
  | .ok task =>
    ((task.history.getD [], some (formatTaskState task.status.state)),
     [.attempt (retryCount + 1)])
  | .error _ =>
    if h : retryCount + 1 ≥ maxRetries then
      (([], none), [.attempt (retryCount + 1)])
    else
      let rest := chatFetchLoop fetch (retryCount + 1) maxRetries
      (rest.1, .attempt (retryCount + 1) :: .sleep 200 :: rest.2)
termination_by maxRetries - retryCount
decreasing_by omega

/-- The fetcher as `chat_page` enters it: `retry_count = 0`,
`max_retries = 3`. -/
def chatPageFetch (fetch : Nat → Except String Task) :
    (List Message × Option String) × List FetchEvent :=
  chatFetchLoop fetch 0 3

/-- Number of fetch attempts recorded in a trace. -/
def countAttempts (trace : List FetchEvent) : Nat :=
  (trace.filter fun e => match e with | .attempt _ => true | _ => false).length

/-! ## Webhook authenticator & receiver (handle_push_notification,
frontend.rs lines 533–576) -/

/-- The authentication check (frontend.rs lines 538–549): the header must
exist and be readable (`authHeader = some h`), start with `"Bearer "`
(Rust `str::starts_with`, modelled as a character-level prefix test —
equivalent to the byte-level test on valid UTF-8), and the remainder after
the 7-byte prefix (`&header[7..]`, i.e. `String.drop 7`) must equal the
process-wide webhook token. -/
def checkWebhookAuth (webhookToken : String) (authHeader : Option String) :
    Bool :=
  match authHeader with
  | some header => "Bearer ".data.isPrefixOf header.data
      && header.drop 7 == webhookToken
  | none => false

/-- The JSON acknowledgement payload of an accepted webhook
(frontend.rs lines 570–575). -/
structure WebhookResponse where
  status : String
  taskId : String
  authenticated : Bool
deriving Repr, DecidableEq

/-- The outcome of a webhook request: the body failed to deserialize (the
`axum::Json` extractor rejects the request before the handler body runs),
the handler rejected it as unauthorized (`AppError(anyhow!("Unauthorized"))`),
or it was acknowledged. -/
inductive WebhookOutcome where
  | bodyParseFailure
  | unauthorized
  | ok (response : WebhookResponse)
deriving Repr, DecidableEq

/-- Observable steps of webhook handling, in execution order: deserializing
the request body, the warn line for a rejected request
(frontend.rs lines 552–555, which logs only the event's task id), and the
info line for an accepted one (lines 559–562). -/
inductive WebhookStep where
  | parseBody
  | logUnauthorizedAttempt (taskId : String)
  | logAuthenticated (taskId : String)
deriving Repr, DecidableEq

/-- Handler `handle_push_notification` (frontend.rs lines 533–576) together with its
`axum::Json` body extractor. `parsedBody` is the deserialization result of the
request body (`none` = malformed; the extractor then rejects the request and
the handler never runs). The body is deserialized before the handler's
authentication check because `axum` evaluates extractors first; the handler's
failure log reads `event.task_id` from the parsed body. -/
def handlePushNotification (webhookToken : String) (authHeader : Option String)
    (parsedBody : Option TaskStatusUpdateEvent) :
    WebhookOutcome × List WebhookStep :=
  match parsedBody with
  | none => (.bodyParseFailure, [.parseBody])
  | some event =>
    if checkWebhookAuth webhookToken authHeader then
      (.ok { status := "received", taskId := event.taskId,
             authenticated := true },
       [.parseBody, .logAuthenticated event.taskId])
    else
      (.unauthorized, [.parseBody, .logUnauthorizedAttempt event.taskId])

/-! ## Event stream bridge -/

/-- One poll result of the underlying per-task subscription: an update event
or a subscription error. Subscription end is the end of the list. -/
inductive SubPoll where
  | event (e : TaskStatusUpdateEvent)
  | failure (message : String)
deriving Repr, DecidableEq

/-- Modelled from the spec: `create_sse_stream`
(a2a-client/src/components/streaming.rs, not among the provided sources;
spec §4.4 Event Stream Bridge). The subscription is the ordered list of its
poll results; `connBudget` is how many further events the outbound connection
will accept before it closes. The bridge relays events one at a time,
terminating when the connection closes (budget exhausted), the subscription
ends, or the subscription errors (error → termination, not failure). Returns
the relayed events and how many polls were issued to the subscription. -/
def bridgeRun : List SubPoll → Nat → List TaskStatusUpdateEvent × Nat
  | _, 0 => ([], 0)
  | [], _ + 1 => ([], 1)
  | .failure _ :: _, _ + 1 => ([], 1)
  | .event e :: rest, b + 1 =>
    let tail := bridgeRun rest b
    (e :: tail.1, tail.2 + 1)

/-! ## Helper lemmas -/

/-- The `File` parts produced by the field loop: one per `receipt` field with
non-empty data, in arrival order. -/
def attachmentParts (fields : List MultipartField) : List Part :=
  (fields.filter fun f => f.name == "receipt" && !f.data.isEmpty).map filePartOf

theorem processField_taskId_of_ne (st : AssemblyState) (f : MultipartField)
    (h : f.name ≠ "task_id") : (processField st f).taskId = st.taskId := by
  unfold processField
  split_ifs <;> simp_all

theorem processField_taskId_of_empty (st : AssemblyState) (f : MultipartField)
    (h : f.name = "task_id" → f.text = "") :
    (processField st f).taskId = st.taskId ∨ (processField st f).taskId = "" := by
  unfold processField
  split_ifs with h1 <;> simp_all

theorem processField_messageText_of_empty (st : AssemblyState)
    (f : MultipartField) (h : f.name = "message" → f.text = "") :
    (processField st f).messageText = st.messageText
      ∨ (processField st f).messageText = "" := by
  unfold processField
  split_ifs <;> simp_all

theorem processField_parts (st : AssemblyState) (f : MultipartField) :
    (processField st f).parts =
      st.parts ++ (if f.name == "receipt" && !f.data.isEmpty
        then [filePartOf f] else []) := by
  unfold processField
  split_ifs <;> simp_all

theorem foldl_processField_parts (fields : List MultipartField)
    (st : AssemblyState) :
    (fields.foldl processField st).parts = st.parts ++ attachmentParts fields := by
  induction fields generalizing st with
  | nil => simp [attachmentParts]
  | cons f fs ih =>
    rw [List.foldl_cons, ih]
    rw [processField_parts]
    by_cases h : (f.name == "receipt" && !f.data.isEmpty) = true
    · simp [attachmentParts, h, List.filter_cons, List.append_assoc]
    · simp only [Bool.not_eq_true] at h
      simp [attachmentParts, h, List.filter_cons]

theorem processFields_parts (fields : List MultipartField) :
    (processFields fields).parts = attachmentParts fields := by
  rw [processFields, foldl_processField_parts]
  rfl

theorem foldl_processField_taskId_empty (fields : List MultipartField)
    (st : AssemblyState) (hst : st.taskId = "")
    (h : ∀ f ∈ fields, f.name = "task_id" → f.text = "") :
    (fields.foldl processField st).taskId = "" := by
  induction fields generalizing st with
  | nil => simpa using hst
  | cons f fs ih =>
    rw [List.foldl_cons]
    refine ih _ ?_ (fun g hg => h g (List.mem_cons_of_mem f hg))
    rcases processField_taskId_of_empty st f (h f (List.mem_cons_self f fs)) with
      h1 | h1 <;> rw [h1]
    exact hst

theorem processFields_taskId_empty (fields : List MultipartField)
    (h : ∀ f ∈ fields, f.name = "task_id" → f.text = "") :
    (processFields fields).taskId = "" :=
  foldl_processField_taskId_empty fields _ rfl h

theorem foldl_processField_messageText_empty (fields : List MultipartField)
    (st : AssemblyState) (hst : st.messageText = "")
    (h : ∀ f ∈ fields, f.name = "message" → f.text = "") :
    (fields.foldl processField st).messageText = "" := by
  induction fields generalizing st with
  | nil => simpa using hst
  | cons f fs ih =>
    rw [List.foldl_cons]
    refine ih _ ?_ (fun g hg => h g (List.mem_cons_of_mem f hg))
    rcases processField_messageText_of_empty st f (h f (List.mem_cons_self f fs))
      with h1 | h1 <;> rw [h1]
    exact hst

theorem processFields_messageText_empty (fields : List MultipartField)
    (h : ∀ f ∈ fields, f.name = "message" → f.text = "") :
    (processFields fields).messageText = "" :=
  foldl_processField_messageText_empty fields _ rfl h

theorem attachmentParts_nil_of_empty (fields : List MultipartField)
    (h : ∀ f ∈ fields, f.name = "receipt" → f.data = []) :
    attachmentParts fields = [] := by
  unfold attachmentParts
  have : List.filter (fun f => f.name == "receipt" && !f.data.isEmpty) fields
      = [] := by
    rw [List.filter_eq_nil_iff]
    intro f hf
    by_cases hn : f.name = "receipt"
    · simp [hn, h f hf hn]
    · simp [hn]
  rw [this, List.map_nil]

theorem string_isEmpty_nil : "".isEmpty = true := rfl

/-- The authentication check accepts exactly the header
`Bearer <webhook token>`. -/
theorem checkWebhookAuth_iff (webhookToken : String) (h : Option String) :
    checkWebhookAuth webhookToken h = true
      ↔ h = some ("Bearer " ++ webhookToken) := by
  cases h with
  | none => simp [checkWebhookAuth]
  | some s =>
    unfold checkWebhookAuth
    simp only [Bool.and_eq_true, List.isPrefixOf_iff_prefix, beq_iff_eq,
      Option.some.injEq]
    constructor
    · rintro ⟨⟨t, ht⟩, hd⟩
      have hdata : s.data = "Bearer ".data ++ t := ht.symm
      have h7 : ("Bearer ").data.length = 7 := by decide
      have hrest : (s.drop 7).data = webhookToken.data := by rw [hd]
      rw [String.data_drop, hdata, ← h7, List.drop_left] at hrest
      apply String.ext
      rw [hdata, hrest, String.data_append]
    · rintro rfl
      refine ⟨⟨webhookToken.data, (String.data_append _ _).symm⟩, ?_⟩
      apply String.ext
      rw [String.data_drop, String.data_append]
      have h7 : ("Bearer ").data.length = 7 := by decide
      rw [← h7, List.drop_left]

/-! ## Claim theorems -/

/-- C1: for every inbound webhook request (with a well-formed body), the
receiver authenticates it iff the Authorization header is exactly
`Bearer <token>` with `<token>` string-equal to the process-wide webhook
secret; any other header (absent, non-Bearer scheme, wrong token) is rejected
with an authentication error, and an accepted request is answered with the
payload `{status: "received", task_id: <body task id>, authenticated: true}`. -/
theorem webhook_auth_exact_bearer_iff (webhookToken : String)
    (authHeader : Option String) (event : TaskStatusUpdateEvent) :
    ((handlePushNotification webhookToken authHeader (some event)).1 =
        .ok { status := "received", taskId := event.taskId,
              authenticated := true }
      ↔ authHeader = some ("Bearer " ++ webhookToken))
    ∧ (authHeader ≠ some ("Bearer " ++ webhookToken) →
        (handlePushNotification webhookToken authHeader (some event)).1 =
          .unauthorized) := by
  unfold handlePushNotification
  by_cases hauth : checkWebhookAuth webhookToken authHeader = true
  · have heq := (checkWebhookAuth_iff webhookToken authHeader).mp hauth
    subst heq
    simp [hauth]
  · have hne : authHeader ≠ some ("Bearer " ++ webhookToken) := fun hc =>
      hauth ((checkWebhookAuth_iff webhookToken authHeader).mpr hc)
    simp [hauth, hne]

theorem webhook_auth_exact_bearer_iff_witness :
    (handlePushNotification "wh_s3cret" (some "Bearer wh_s3cret")
        (some { taskId := "task-1", status := { state := .working } })).1 =
      .ok { status := "received", taskId := "task-1", authenticated := true }
    ∧ (handlePushNotification "wh_s3cret" (some "Basic wh_s3cret")
        (some { taskId := "task-1", status := { state := .working } })).1 =
      .unauthorized :=
  ⟨(webhook_auth_exact_bearer_iff "wh_s3cret" (some "Bearer wh_s3cret")
      { taskId := "task-1", status := { state := .working } }).1.mpr (by decide),
   (webhook_auth_exact_bearer_iff "wh_s3cret" (some "Basic wh_s3cret")
      { taskId := "task-1", status := { state := .working } }).2 (by decide)⟩

/-- C5 counterexample: the receiver does NOT reject an unauthenticated
request before parsing the body — at a concrete request with no Authorization
header, the body is deserialized (the first handling step) and only then is
the request rejected; indeed the failure log needs the parsed body's task id. -/
theorem webhook_parses_body_before_auth_counterexample :
    (handlePushNotification "wh_s3cret" none
        (some { taskId := "task-1", status := { state := .working } })).1 =
      .unauthorized
    ∧ (handlePushNotification "wh_s3cret" none
        (some { taskId := "task-1", status := { state := .working } })).2.head? =
      some .parseBody := by decide

/-- C5 (amended): for every inbound webhook request that fails
authentication, the receiver rejects it with an authentication error before
acting on the request body — though the body is deserialized before the
authentication check (its task identifier feeds the failure log); the failure
is logged with the offending task identifier, and the token is never logged:
the handling trace is identical for any two requests that fail
authentication, whatever their headers contain. -/
theorem webhook_unauthorized_logs_task_id_never_token (webhookToken : String)
    (authHeader : Option String) (event : TaskStatusUpdateEvent)
    (hfail : checkWebhookAuth webhookToken authHeader = false) :
    (handlePushNotification webhookToken authHeader (some event)).1 =
      .unauthorized
    ∧ (handlePushNotification webhookToken authHeader (some event)).2 =
        [.parseBody, .logUnauthorizedAttempt event.taskId]
    ∧ ∀ other : Option String, checkWebhookAuth webhookToken other = false →
        (handlePushNotification webhookToken other (some event)).2 =
          (handlePushNotification webhookToken authHeader (some event)).2 := by
  unfold handlePushNotification
  refine ⟨by simp [hfail], by simp [hfail], ?_⟩
  intro other hother
  simp [hfail, hother]

theorem webhook_unauthorized_logs_task_id_never_token_witness :
    (handlePushNotification "wh_s3cret" (some "Bearer wrong")
        (some { taskId := "task-1", status := { state := .working } })).1 =
      .unauthorized :=
  (webhook_unauthorized_logs_task_id_never_token "wh_s3cret"
    (some "Bearer wrong") { taskId := "task-1", status := { state := .working } }
    (by decide)).1

/-- C4: whenever the processed text field is non-empty, the assembled Part
sequence is the Text part at position 0 followed by the File parts of the
non-empty attachments in arrival order; with zero (non-empty) attachments it
is exactly the one Text part. -/
theorem text_part_leads_assembled_parts (fields : List MultipartField)
    (h : ¬ (processFields fields).messageText.isEmpty) :
    assembledParts fields =
      Part.text (processFields fields).messageText :: attachmentParts fields
    ∧ ((∀ f ∈ fields, f.name = "receipt" → f.data = []) →
        assembledParts fields =
          [Part.text (processFields fields).messageText]) := by
  have hp := processFields_parts fields
  constructor
  · rw [assembledParts]
    simp only [h, if_neg, hp]
    simp [h]
  · intro hz
    rw [assembledParts]
    simp only [hp, attachmentParts_nil_of_empty fields hz]
    simp [h]

theorem text_part_leads_assembled_parts_witness :
    assembledParts [⟨"message", none, none, "hello", []⟩] =
      [Part.text "hello"] :=
  (text_part_leads_assembled_parts
    [⟨"message", none, none, "hello", []⟩] (by decide)).2 (by decide)

/-- C6: a field set with no task-identifier field fails with the
`MissingTaskId` validation error whatever the other fields are, with an
empty action trace: no submit (nor any other backend call) is issued. -/
theorem missing_task_id_fails_before_submit (webhookToken msgId : String)
    (fields : List MultipartField) (submitResult : Except String Task)
    (registerResult : Except String Unit)
    (h : ∀ f ∈ fields, f.name ≠ "task_id") :
    sendMessage webhookToken msgId fields submitResult registerResult =
      (.validationError .missingTaskId, []) := by
  have ht : (processFields fields).taskId = "" :=
    processFields_taskId_empty fields (fun f hf hn => absurd hn (h f hf))
  unfold sendMessage
  simp [ht, string_isEmpty_nil]

theorem missing_task_id_fails_before_submit_witness :
    sendMessage "wh_s3cret" "m1" [⟨"message", none, none, "hello", []⟩]
        (Except.ok { id := "t", status := { state := .working },
                     history := none })
        (Except.ok ()) =
      (.validationError .missingTaskId, []) :=
  missing_task_id_fails_before_submit "wh_s3cret" "m1"
    [⟨"message", none, none, "hello", []⟩] _ _ (by decide)

/-- C7: a field set that supplies a (non-empty) task identifier but yields
zero Parts — every text field empty and every attachment empty — fails with
the `EmptyMessage` validation error, with an empty action trace: no backend
call is issued. -/
theorem empty_message_fails_before_submit (webhookToken msgId : String)
    (fields : List MultipartField) (submitResult : Except String Task)
    (registerResult : Except String Unit)
    (htid : ¬ (processFields fields).taskId.isEmpty)
    (hmsg : ∀ f ∈ fields, f.name = "message" → f.text = "")
    (hrec : ∀ f ∈ fields, f.name = "receipt" → f.data = []) :
    sendMessage webhookToken msgId fields submitResult registerResult =
      (.validationError .emptyMessage, []) := by
  have hm := processFields_messageText_empty fields hmsg
  have hp : assembledParts fields = [] := by
    rw [assembledParts]
    simp [hm, string_isEmpty_nil, processFields_parts,
      attachmentParts_nil_of_empty fields hrec]
  unfold sendMessage
  simp [htid, hp]

theorem empty_message_fails_before_submit_witness :
    sendMessage "wh_s3cret" "m1" [⟨"task_id", none, none, "t1", []⟩]
        (Except.ok { id := "t", status := { state := .working },
                     history := none })
        (Except.ok ()) =
      (.validationError .emptyMessage, []) :=
  empty_message_fails_before_submit "wh_s3cret" "m1"
    [⟨"task_id", none, none, "t1", []⟩] _ _ (by decide) (by decide) (by decide)

/-- C10: a submission whose task-identifier fields all carry the empty string
fails with the same `MissingTaskId` error (and empty trace) as when the field
is absent; and in general the gateway never issues a submit whose task
identifier is the empty string. -/
theorem empty_task_id_treated_as_missing (webhookToken msgId : String)
    (fields : List MultipartField) (submitResult : Except String Task)
    (registerResult : Except String Unit)
    (h : ∀ f ∈ fields, f.name = "task_id" → f.text = "") :
    sendMessage webhookToken msgId fields submitResult registerResult =
      (.validationError .missingTaskId, [])
    ∧ ∀ (fields' : List MultipartField) (sub' : Except String Task)
        (reg' : Except String Unit) (tid : String) (m : Message),
        GatewayEvent.submitCalled tid m ∈
          (sendMessage webhookToken msgId fields' sub' reg').2 →
        ¬ tid.isEmpty ∧ m.taskId = some tid := by
  constructor
  · have ht := processFields_taskId_empty fields h
    unfold sendMessage
    simp [ht, string_isEmpty_nil]
  · intro fields' sub' reg' tid m hmem
    unfold sendMessage at hmem
    by_cases h1 : (processFields fields').taskId.isEmpty
    · simp [h1] at hmem
    · by_cases h2 : (assembledParts fields').isEmpty
      · simp [h1, h2] at hmem
      · cases sub' with
        | error e =>
          simp [h1, h2] at hmem
          obtain ⟨htid, hm⟩ := hmem
          subst htid
          exact ⟨h1, by rw [hm]⟩
        | ok t =>
          cases reg' with
          | error e =>
            simp [h1, h2] at hmem
            obtain ⟨htid, hm⟩ := hmem
            subst htid
            exact ⟨h1, by rw [hm]⟩
          | ok u =>
            simp [h1, h2] at hmem
            obtain ⟨htid, hm⟩ := hmem
            subst htid
            exact ⟨h1, by rw [hm]⟩

theorem empty_task_id_treated_as_missing_witness :
    sendMessage "wh_s3cret" "m1"
        [⟨"task_id", none, none, "", []⟩, ⟨"message", none, none, "hello", []⟩]
        (Except.ok { id := "t", status := { state := .working },
                     history := none })
        (Except.ok ()) =
      (.validationError .missingTaskId, []) :=
  (empty_task_id_treated_as_missing "wh_s3cret" "m1"
    [⟨"task_id", none, none, "", []⟩, ⟨"message", none, none, "hello", []⟩]
    _ _ (by decide)).1

/-- C2: when every fetch attempt fails, the chat page's retry-aware fetcher
performs exactly 3 attempts with a 200 ms sleep between consecutive attempts,
and returns an empty message history and an absent status (a normal value:
no error is propagated). -/
theorem retry_fetch_three_attempts_then_empty
    (fetch : Nat → Except String Task) (err : Nat → String)
    (hfail : ∀ n, fetch n = .error (err n)) :
    chatPageFetch fetch =
      (([], none),
       [.attempt 1, .sleep 200, .attempt 2, .sleep 200, .attempt 3]) := by
  unfold chatPageFetch
  simp [chatFetchLoop, hfail]

theorem retry_fetch_three_attempts_then_empty_witness :
    chatPageFetch (fun _ => Except.error "task not found") =
      (([], none),
       [.attempt 1, .sleep 200, .attempt 2, .sleep 200, .attempt 3]) :=
  retry_fetch_three_attempts_then_empty _ (fun _ => "task not found")
    (fun _ => rfl)

/-- C8: if the n-th fetch attempt (1 ≤ n ≤ 3, earlier attempts failing)
succeeds, the fetcher returns that task's message history and formatted
status and stops immediately: the trace holds exactly n attempts and none
beyond the n-th. -/
theorem retry_fetch_stops_on_success
    (fetch : Nat → Except String Task) (n : Nat) (task : Task)
    (hge : 1 ≤ n) (hle : n ≤ 3)
    (hprev : ∀ m, 1 ≤ m → m < n → ∃ e, fetch m = Except.error e)
    (hn : fetch n = .ok task) :
    (chatPageFetch fetch).1 =
        (task.history.getD [], some (formatTaskState task.status.state))
    ∧ countAttempts (chatPageFetch fetch).2 = n
    ∧ ∀ m, FetchEvent.attempt m ∈ (chatPageFetch fetch).2 → m ≤ n := by
  interval_cases n
  · have ht : chatPageFetch fetch =
        ((task.history.getD [], some (formatTaskState task.status.state)),
         [.attempt 1]) := by
      unfold chatPageFetch
      simp [chatFetchLoop, hn]
    rw [ht]
    refine ⟨rfl, rfl, ?_⟩
    intro m hm
    simp at hm
    omega
  · obtain ⟨e1, he1⟩ := hprev 1 (by omega) (by omega)
    have ht : chatPageFetch fetch =
        ((task.history.getD [], some (formatTaskState task.status.state)),
         [.attempt 1, .sleep 200, .attempt 2]) := by
      unfold chatPageFetch
      simp [chatFetchLoop, he1, hn]
    rw [ht]
    refine ⟨rfl, rfl, ?_⟩
    intro m hm
    simp at hm
    omega
  · obtain ⟨e1, he1⟩ := hprev 1 (by omega) (by omega)
    obtain ⟨e2, he2⟩ := hprev 2 (by omega) (by omega)
    have ht : chatPageFetch fetch =
        ((task.history.getD [], some (formatTaskState task.status.state)),
         [.attempt 1, .sleep 200, .attempt 2, .sleep 200, .attempt 3]) := by
      unfold chatPageFetch
      simp [chatFetchLoop, he1, he2, hn]
    rw [ht]
    refine ⟨rfl, rfl, ?_⟩
    intro m hm
    simp at hm
    omega

theorem retry_fetch_stops_on_success_witness :
    (chatPageFetch (fun n => if n = 2
        then Except.ok { id := "t1", status := { state := .completed },
                         history := some [] }
        else Except.error "task not found")).1 = ([], some "Completed")
    ∧ countAttempts (chatPageFetch (fun n => if n = 2
        then Except.ok { id := "t1", status := { state := .completed },
                         history := some [] }
        else Except.error "task not found")).2 = 2 := by
  have h := retry_fetch_stops_on_success
    (fun n => if n = 2
      then Except.ok { id := "t1", status := { state := .completed },
                       history := some [] }
      else Except.error "task not found") 2
    { id := "t1", status := { state := .completed }, history := some [] }
    (by omega) (by omega)
    (fun m h1 h2 => ⟨"task not found", by interval_cases m; rfl⟩) rfl
  exact ⟨h.1, h.2.1⟩

/-- Matches the webhook-registration events in a gateway trace. -/
def isRegisterCall : GatewayEvent → Bool
  | .registerCalled _ _ _ => true
  | _ => false

/-- C3: webhook registration (with the process-wide secret as bearer token)
is attempted only after a successful submit; a failed submit fails the
request with no registration attempt (both for chat send and for expense
submission); and once the submit succeeded, the request redirects to the
task's chat page whatever the registration outcome — a registration failure
is swallowed. -/
theorem registration_follows_successful_submit (webhookToken msgId taskId
    e : String) (fields : List MultipartField) (form : ExpenseSubmitForm)
    (t : Task) (reg : Except String Unit) :
    ((sendMessage webhookToken msgId fields (Except.error e) reg).2.filter
        isRegisterCall = []
      ∧ ∀ loc, (sendMessage webhookToken msgId fields (Except.error e) reg).1 ≠
          .redirect loc)
    ∧ ((submitExpense webhookToken taskId msgId form (Except.error e) reg).1 =
          .upstreamError ("Failed to submit expense: " ++ e)
      ∧ (submitExpense webhookToken taskId msgId form
          (Except.error e) reg).2.filter isRegisterCall = [])
    ∧ (¬ (processFields fields).taskId.isEmpty →
        ¬ (assembledParts fields).isEmpty →
        (sendMessage webhookToken msgId fields (Except.ok t) reg).1 =
          .redirect ("/chat/" ++ (processFields fields).taskId)
        ∧ ∃ m regLog,
            (sendMessage webhookToken msgId fields (Except.ok t) reg).2 =
              [.submitCalled (processFields fields).taskId m,
               .registerCalled (processFields fields).taskId webhookUrl
                 (some webhookToken),
               regLog, .sleep 500])
    ∧ ((submitExpense webhookToken taskId msgId form (Except.ok t) reg).1 =
          .redirect ("/chat/" ++ taskId)
      ∧ ∃ m regLog,
          (submitExpense webhookToken taskId msgId form (Except.ok t) reg).2 =
            [.submitCalled taskId m, .registerCalled taskId webhookUrl
               (some webhookToken), regLog, .sleep 500]) := by
  refine ⟨⟨?_, ?_⟩, ⟨?_, ?_⟩, ?_, ?_, ?_⟩
  · unfold sendMessage
    by_cases h1 : (processFields fields).taskId.isEmpty
    · simp [h1, isRegisterCall]
    · by_cases h2 : (assembledParts fields).isEmpty <;>
        simp [h1, h2, isRegisterCall]
  · intro loc
    unfold sendMessage
    by_cases h1 : (processFields fields).taskId.isEmpty
    · simp [h1]
    · by_cases h2 : (assembledParts fields).isEmpty <;> simp [h1, h2]
  · unfold submitExpense
    simp
  · unfold submitExpense
    simp [isRegisterCall]
  · intro h1 h2
    have hres : sendMessage webhookToken msgId fields (Except.ok t) reg =
        (.redirect ("/chat/" ++ (processFields fields).taskId),
         [.submitCalled (processFields fields).taskId
            { role := .user, parts := assembledParts fields,
              referenceTaskIds := none, messageId := msgId,
              taskId := some (processFields fields).taskId,
              contextId := none, kind := "message" },
          .registerCalled (processFields fields).taskId webhookUrl
            (some webhookToken),
          (match reg with
           | .ok _ => GatewayEvent.logInfo
               ("Push notification registered for task "
                 ++ (processFields fields).taskId ++ " with authentication")
           | .error re => GatewayEvent.logWarn
               ("Failed to register push notification for task "
                 ++ (processFields fields).taskId ++ ": " ++ re)),
          .sleep 500]) := by
      unfold sendMessage
      simp [h1, h2]
    rw [hres]
    exact ⟨rfl, _, _, rfl⟩
  · unfold submitExpense
    simp
  · have hres : submitExpense webhookToken taskId msgId form (Except.ok t)
        reg =
        (.redirect ("/chat/" ++ taskId),
         [.submitCalled taskId
            { role := .user, parts := [Part.text (expenseDetails form)],
              referenceTaskIds := none, messageId := msgId,
              taskId := some taskId, contextId := none, kind := "message" },
          .registerCalled taskId webhookUrl (some webhookToken),
          (match reg with
           | .ok _ => GatewayEvent.logInfo
               ("Push notification registered for expense task " ++ taskId
                 ++ " with authentication")
           | .error re => GatewayEvent.logWarn
               ("Failed to register push notification: " ++ re)),
          .sleep 500]) := by
      unfold submitExpense
      simp
    rw [hres]
    exact ⟨_, _, rfl⟩

theorem registration_follows_successful_submit_witness :
    (sendMessage "wh_s3cret" "m1" [⟨"task_id", none, none, "t1", []⟩,
        ⟨"message", none, none, "hello", []⟩]
      (Except.ok { id := "t1", status := { state := .working },
                   history := none })
      (Except.error "register failed")).1 = .redirect "/chat/t1" := by
  have h := (registration_follows_successful_submit "wh_s3cret" "m1" "t1"
    "boom" [⟨"task_id", none, none, "t1", []⟩,
      ⟨"message", none, none, "hello", []⟩]
    { category := "travel", amount := "1", date := "d", vendor := none,
      description := "x", projectCode := none }
    { id := "t1", status := { state := .working }, history := none }
    (Except.error "register failed")).2.2.1 (by decide) (by decide)
  exact h.1

theorem bridgeRun_polls_le_budget (sub : List SubPoll) (budget : Nat) :
    (bridgeRun sub budget).2 ≤ budget := by
  induction sub generalizing budget with
  | nil => cases budget <;> simp [bridgeRun]
  | cons p rest ih =>
    cases budget with
    | zero => simp [bridgeRun]
    | succ b =>
      cases p with
      | event e =>
        have := ih b
        simp only [bridgeRun]
        omega
      | failure m => simp [bridgeRun]

theorem bridgeRun_polls_le_length (sub : List SubPoll) (budget : Nat) :
    (bridgeRun sub budget).2 ≤ sub.length + 1 := by
  induction sub generalizing budget with
  | nil => cases budget <;> simp [bridgeRun]
  | cons p rest ih =>
    cases budget with
    | zero => simp [bridgeRun]
    | succ b =>
      cases p with
      | event e =>
        have := ih b
        simp only [bridgeRun, List.length_cons]
        omega
      | failure m => simp [bridgeRun]

theorem bridgeRun_stops_at_failure (pre : List TaskStatusUpdateEvent)
    (msg : String) (rest : List SubPoll) (budget : Nat)
    (h : pre.length < budget) :
    bridgeRun (pre.map SubPoll.event ++ SubPoll.failure msg :: rest) budget =
      (pre, pre.length + 1) := by
  induction pre generalizing budget with
  | nil =>
    cases budget with
    | zero => omega
    | succ b => simp [bridgeRun]
  | cons e pre ih =>
    cases budget with
    | zero => omega
    | succ b =>
      have hb : pre.length < b := by
        simpa using Nat.lt_of_succ_lt_succ (by simpa using h)
      simp [bridgeRun, ih b hb]

/-- C9: the event-stream bridge terminates and stops polling the underlying
per-task subscription when the outbound connection closes (polls never exceed
the events the connection accepted), when the subscription ends (polls never
exceed its length plus the final end-of-stream poll), or when the
subscription errors: a poll that yields an error ends the relay with the
events delivered so far — a normal return, not a failure — and no further
polls are issued to the subscription whatever it would deliver afterwards. -/
theorem bridge_terminates_and_releases_subscription :
    (∀ (sub : List SubPoll) (budget : Nat),
      (bridgeRun sub budget).2 ≤ budget)
    ∧ (∀ (sub : List SubPoll) (budget : Nat),
        (bridgeRun sub budget).2 ≤ sub.length + 1)
    ∧ (∀ (pre : List TaskStatusUpdateEvent) (msg : String)
        (rest : List SubPoll) (budget : Nat), pre.length < budget →
        bridgeRun (pre.map SubPoll.event ++ SubPoll.failure msg :: rest)
          budget = (pre, pre.length + 1)) :=
  ⟨bridgeRun_polls_le_budget, bridgeRun_polls_le_length,
   bridgeRun_stops_at_failure⟩

theorem bridge_terminates_and_releases_subscription_witness :
    bridgeRun
        [SubPoll.event { taskId := "t1", status := { state := .working } },
         SubPoll.failure "subscription error",
         SubPoll.event { taskId := "t1", status := { state := .completed } }]
        5 =
      ([{ taskId := "t1", status := { state := .working } }], 2) :=
  bridge_terminates_and_releases_subscription.2.2
    [{ taskId := "t1", status := { state := .working } }]
    "subscription error"
    [SubPoll.event { taskId := "t1", status := { state := .completed } }]
    5 (by decide)

end A2AFrontend
